import Mathlib

/-
Verification development for the `dojo` repository's data-envelope core
(`scroll.py`): the `Scroll` envelope, its metadata, the process-wide
registry, the type-directed arithmetic operators with their backward
(gradient) closures, serialization to and from the wire format, and the
content hash.

Modelling conventions (shallow embedding):
- Python numbers are modelled as a tagged union of `Int` (`ℤ`) and
  `float` (`ℚ`, the exact-rational model of double arithmetic; all values
  appearing in the claims are exactly representable).
- Python `dict` is modelled as an insertion-ordered association list with
  `String` keys and unique keys (the invariant Python dicts maintain).
- A Python expression that raises (`TypeError`, `IndexError`,
  `ZeroDivisionError`) is modelled by an `Option`-valued function
  returning `none`.
- Object identity is modelled by a heap of scroll objects addressed by
  `ObjId`; the class registry maps keys to object ids, last write wins.
- External library functions (`time.time`, the generated-key suffix of
  `_generate_key`, `math.tanh`) are passed as explicit parameters.
-/

set_option autoImplicit false

/- The library marks `Rat`'s arithmetic `@[irreducible]`, which blocks
definitional evaluation of the executable model below; restore the
default transparency so concrete runs reduce. -/
set_option allowUnsafeReducibility true
attribute [semireducible] Rat.add Rat.mul Rat.inv Rat.sub Rat.neg

namespace Dojo

/-- A Python numeric value: `int` or `float`.  Floats are modelled
exactly as rationals. -/
inductive NumV where
  | i (z : ℤ)
  | f (q : ℚ)
  deriving DecidableEq, Repr

/-- The JSON-serializable payloads `scroll.py` operates on: numbers,
strings, lists, string-keyed dicts, and `None`. -/
inductive Data where
  | num (v : NumV)
  | str (s : String)
  | list (xs : List Data)
  | dict (kvs : List (String × Data))
  | null

/-- Numeric value as a rational (the common arithmetic carrier). -/
def NumV.toQ : NumV → ℚ
  | .i z => (z : ℚ)
  | .f q => q

/-- `isinstance(x, (int, float))`. -/
def Data.isNum : Data → Bool
  | .num _ => true
  | _ => false

/-- Read a numeric payload as a rational, if numeric. -/
def Data.numQ : Data → Option ℚ
  | .num v => some v.toQ
  | _ => none

/-- Python `+` on two numbers, with `int`/`float` promotion. -/
def NumV.add : NumV → NumV → NumV
  | .i a, .i b => .i (a + b)
  | .i a, .f b => .f ((a : ℚ) + b)
  | .f a, .i b => .f (a + (b : ℚ))
  | .f a, .f b => .f (a + b)

/-- Python `*` on two numbers, with `int`/`float` promotion. -/
def NumV.mul : NumV → NumV → NumV
  | .i a, .i b => .i (a * b)
  | .i a, .f b => .f ((a : ℚ) * b)
  | .f a, .i b => .f (a * (b : ℚ))
  | .f a, .f b => .f (a * b)

/-- Python `{**a, **b}`: right-biased merge.  Keys of `a` keep their
position (values overridden by `b` on collision); new keys of `b` are
appended in `b`'s order. -/
def dictMerge (a b : List (String × Data)) : List (String × Data) :=
  a.map (fun kv =>
    match b.find? (fun kv2 => kv2.1 == kv.1) with
    | some kv2 => (kv.1, kv2.2)
    | none => kv)
  ++ b.filter (fun kv2 => (a.find? (fun kv => kv.1 == kv2.1)).isNone)

/-- Python `s * n` for a string and an int (`n ≤ 0` gives `""`). -/
def strRepeat (s : String) (n : ℤ) : String :=
  (List.replicate n.toNat s).foldl (fun acc t => acc ++ t) ""

/-- Python `xs * n` for a list and an int (`n ≤ 0` gives `[]`). -/
def listRepeat (xs : List Data) (n : ℤ) : List Data :=
  (List.replicate n.toNat xs).foldl (fun acc t => acc ++ t) []

/-- The type-directed dispatch of `Scroll.__add__` (scroll.py lines
224-234).  The first four arms are the explicit branches; the `else`
branch attempts Python's native `+`, which raises `TypeError` on every
remaining pair of these types (modelled as `none`). -/
def pyAdd : Data → Data → Option Data
  | .num x, .num y => some (.num (x.add y))
  | .str a, .str b => some (.str (a ++ b))
  | .list a, .list b => some (.list (a ++ b))
  | .dict a, .dict b => some (.dict (dictMerge a b))
  | _, _ => none

/-- The type-directed dispatch of `Scroll.__mul__` (scroll.py lines
252-259).  Branches: numeric product; `str * int` and `list * int`
repetition; the `else` branch attempts native `*`, which also accepts
`int * str` and `int * list` and raises `TypeError` on every other
remaining pair of these types. -/
def pyMul : Data → Data → Option Data
  | .num x, .num y => some (.num (x.mul y))
  | .str a, .num (.i n) => some (.str (strRepeat a n))
  | .list a, .num (.i n) => some (.list (listRepeat a n))
  | .num (.i n), .str a => some (.str (strRepeat a n))
  | .num (.i n), .list a => some (.list (listRepeat a n))
  | _, _ => none

/-- `q ^ n` for an integer exponent, as Python computes it on floats
(negative exponent inverts; the zero-base negative-exponent case is
excluded by the callers below). -/
def qzpow (q : ℚ) (n : ℤ) : ℚ :=
  if 0 ≤ n then q ^ n.toNat else (q ^ (-n).toNat)⁻¹

/-- `self.data ** n` in `Scroll.__pow__` (scroll.py line 275) for an
integer exponent.  `int ** negative int` produces a float;
`0 ** negative` raises `ZeroDivisionError`; non-numeric bases raise
`TypeError`. -/
def pyPow : Data → ℤ → Option Data
  | .num (.i z), n =>
      if 0 ≤ n then some (.num (.i (z ^ n.toNat)))
      else if z = 0 then none
      else some (.num (.f (qzpow (z : ℚ) n)))
  | .num (.f q), n =>
      if q = 0 ∧ n < 0 then none
      else some (.num (.f (qzpow q n)))
  | _, _ => none

/-- Python truthiness of the payloads (used by `reduce`'s
`if initial`). -/
def Data.truthy : Data → Bool
  | .num (.i z) => z != 0
  | .num (.f q) => q != 0
  | .str s => s != ""
  | .list xs => !xs.isEmpty
  | .dict kvs => !kvs.isEmpty
  | .null => false

/-! ### Canonical JSON rendering

`Scroll._compute_hash` hashes `key + json.dumps(data, default=str,
sort_keys=True)` (scroll.py line 163).  The renderer below reproduces
`json.dumps` on the payload union: default separators `", "` and `": "`,
sorted mapping keys, `ensure_ascii` escaping.  Floats are printed as
their exact decimal expansion with a trailing `.0` for integral values,
matching CPython `repr` for the moderate-magnitude floats this
repository produces (scientific notation for extreme magnitudes is not
modelled). -/

/-- Hex digit character. -/
def nibbleChar (n : Nat) : Char :=
  "0123456789abcdef".data.getD n '0'

/-- Fixed-width four-digit lowercase hex (for `\uXXXX` escapes). -/
def hex4 (n : Nat) : String :=
  String.mk ((List.range 4).map (fun i => nibbleChar ((n / 16 ^ (3 - i)) % 16)))

/-- JSON escaping of one character, `ensure_ascii=True` style. -/
def escChar (c : Char) : String :=
  if c = '"' then "\\\""
  else if c = '\\' then "\\\\"
  else if c = '\n' then "\\n"
  else if c = '\t' then "\\t"
  else if c = '\r' then "\\r"
  else if c.toNat = 8 then "\\b"
  else if c.toNat = 12 then "\\f"
  else if c.toNat < 32 then "\\u" ++ hex4 c.toNat
  else if c.toNat < 127 then String.mk [c]
  else if c.toNat < 65536 then "\\u" ++ hex4 c.toNat
  else
    let v := c.toNat - 65536
    "\\u" ++ hex4 (55296 + v / 1024) ++ "\\u" ++ hex4 (56320 + v % 1024)

/-- A JSON string literal with escaping. -/
def jsonString (s : String) : String :=
  "\"" ++ (s.data.map escChar).foldl (fun a b => a ++ b) "" ++ "\""

/-- Decimal digits of the fractional part `q ∈ [0, 1)`, fuel-bounded
(dyadic fractions of double width always terminate well within the
fuel). -/
def fracDigits : ℚ → Nat → String
  | _, 0 => ""
  | q, fuel + 1 =>
    if q = 0 then ""
    else
      let q10 := q * 10
      let d := q10.num.toNat / q10.den
      toString d ++ fracDigits (q10 - (d : ℚ)) fuel

/-- CPython `repr` of a float, on the exact-rational model. -/
def floatRepr (q : ℚ) : String :=
  let sign := if q < 0 then "-" else ""
  let a := if q < 0 then -q else q
  let ip := a.num.toNat / a.den
  let fp := a - (ip : ℚ)
  sign ++ toString ip ++ "." ++ (if fp = 0 then "0" else fracDigits fp 60)

/-- Insertion step for sorting rendered dict entries by key
(`sort_keys=True`). -/
def insortPair (kv : String × String) : List (String × String) → List (String × String)
  | [] => [kv]
  | kv2 :: rest => if kv.1 < kv2.1 then kv :: kv2 :: rest else kv2 :: insortPair kv rest

/-- Sort rendered dict entries by key. -/
def sortPairs (l : List (String × String)) : List (String × String) :=
  l.foldr insortPair []

/-- Join with a separator (JSON's `", "` / `": "`). -/
def joinSep (sep : String) : List String → String
  | [] => ""
  | [x] => x
  | x :: xs => x ++ sep ++ joinSep sep xs

mutual

/-- `json.dumps(d, default=str, sort_keys=True)` on the payload union. -/
def dumps : Data → String
  | .null => "null"
  | .num (.i z) => toString z
  | .num (.f q) => floatRepr q
  | .str s => jsonString s
  | .list xs => "[" ++ joinSep ", " (dumpsList xs) ++ "]"
  | .dict kvs =>
      "\x7b" ++
        joinSep ", "
          ((sortPairs (dumpsKVs kvs)).map (fun kv => jsonString kv.1 ++ ": " ++ kv.2)) ++
      "\x7d"

/-- Render each list element. -/
def dumpsList : List Data → List String
  | [] => []
  | x :: xs => dumps x :: dumpsList xs

/-- Render each dict value, keeping its key (sorted afterwards). -/
def dumpsKVs : List (String × Data) → List (String × String)
  | [] => []
  | (k, v) :: rest => (k, dumps v) :: dumpsKVs rest

end

/-! ### SHA-256 (FIPS 180-4)

`_compute_hash` calls `hashlib.sha256(content.encode()).hexdigest()`.
The hash itself is an external library primitive; it is embedded here as
a concrete executable implementation over byte lists. -/

/-- UTF-8 encoding of one code point. -/
def encodeChar (n : Nat) : List Nat :=
  if n < 128 then [n]
  else if n < 2048 then [192 + n / 64, 128 + n % 64]
  else if n < 65536 then [224 + n / 4096, 128 + (n / 64) % 64, 128 + n % 64]
  else [240 + n / 262144, 128 + (n / 4096) % 64, 128 + (n / 64) % 64, 128 + n % 64]

/-- `str.encode()`: UTF-8 bytes of a string. -/
def utf8Bytes (s : String) : List Nat :=
  s.data.foldr (fun c acc => encodeChar c.toNat ++ acc) []

/-- Truncate to a 32-bit word. -/
def w32 (n : Nat) : Nat := n % 4294967296

/-- 32-bit right rotation. -/
def rotr (x n : Nat) : Nat := w32 ((x >>> n) ||| (x <<< (32 - n)))

/-- 32-bit complement. -/
def cpl (x : Nat) : Nat := x ^^^ 4294967295

/-- SHA-256 big sigma 0. -/
def bsig0 (x : Nat) : Nat := rotr x 2 ^^^ rotr x 13 ^^^ rotr x 22

/-- SHA-256 big sigma 1. -/
def bsig1 (x : Nat) : Nat := rotr x 6 ^^^ rotr x 11 ^^^ rotr x 25

/-- SHA-256 small sigma 0. -/
def ssig0 (x : Nat) : Nat := rotr x 7 ^^^ rotr x 18 ^^^ (x >>> 3)

/-- SHA-256 small sigma 1. -/
def ssig1 (x : Nat) : Nat := rotr x 17 ^^^ rotr x 19 ^^^ (x >>> 10)

/-- SHA-256 choice function. -/
def chf (e f g : Nat) : Nat := (e &&& f) ^^^ (cpl e &&& g)

/-- SHA-256 majority function. -/
def majf (a b c : Nat) : Nat := (a &&& b) ^^^ (a &&& c) ^^^ (b &&& c)

/-- The 64 SHA-256 round constants (FIPS 180-4 §4.2.2, written in
decimal). -/
def K256 : List Nat :=
  [1116352408, 1899447441, 3049323471, 3921009573, 961987163, 1508970993,
   2453635748, 2870763221, 3624381080, 310598401, 607225278, 1426881987,
   1925078388, 2162078206, 2614888103, 3248222580, 3835390401, 4022224774,
   264347078, 604807628, 770255983, 1249150122, 1555081692, 1996064986,
   2554220882, 2821834349, 2952996808, 3210313671, 3336571891, 3584528711,
   113926993, 338241895, 666307205, 773529912, 1294757372, 1396182291,
   1695183700, 1986661051, 2177026350, 2456956037, 2730485921, 2820302411,
   3259730800, 3345764771, 3516065817, 3600352804, 4094571909, 275423344,
   430227734, 506948616, 659060556, 883997877, 958139571, 1322822218,
   1537002063, 1747873779, 1955562222, 2024104815, 2227730452, 2361852424,
   2428436474, 2756734187, 3204031479, 3329325298]

/-- The eight working variables of the compression function. -/
structure H8 where
  a : Nat
  b : Nat
  c : Nat
  d : Nat
  e : Nat
  f : Nat
  g : Nat
  h : Nat

/-- SHA-256 initial hash value (FIPS 180-4 §5.3.3, in decimal). -/
def Hinit : H8 :=
  ⟨1779033703, 3144134277, 1013904242, 2773480762,
   1359893119, 2600822924, 528734635, 1541459225⟩

/-- Merkle–Damgård padding: `0x80`, zeros to 56 mod 64, 8-byte
big-endian bit length. -/
def shaPad (msg : List Nat) : List Nat :=
  let len := msg.length
  let r := (len + 1) % 64
  let zeros := (56 + 64 - r) % 64
  let bitLen := len * 8
  msg ++ [128] ++ List.replicate zeros 0 ++
    (List.range 8).map (fun i => (bitLen / 2 ^ (8 * (7 - i))) % 256)

/-- Group bytes into big-endian 32-bit words. -/
def toWords : List Nat → List Nat
  | b0 :: b1 :: b2 :: b3 :: rest =>
      (b0 * 16777216 + b1 * 65536 + b2 * 256 + b3) :: toWords rest
  | _ => []

/-- Group a word list into 16-word blocks. -/
def chunk16 (ws : List Nat) : List (List Nat) :=
  match ws with
  | [] => []
  | w :: rest => ((w :: rest).take 16) :: chunk16 (rest.drop 15)
termination_by ws.length
decreasing_by simp [List.length_drop]; omega

/-- Message-schedule extension, on the reversed word list (head is the
most recent word). -/
def extendW : Nat → List Nat → List Nat
  | 0, rws => rws
  | n + 1, rws =>
      extendW n
        (w32 (ssig1 (rws.getD 1 0) + rws.getD 6 0 + ssig0 (rws.getD 14 0) + rws.getD 15 0) :: rws)

/-- One compression round. -/
def shaRound (st : H8) (kw : Nat × Nat) : H8 :=
  let t1 := w32 (st.h + bsig1 st.e + chf st.e st.f st.g + kw.1 + kw.2)
  let t2 := w32 (bsig0 st.a + majf st.a st.b st.c)
  ⟨w32 (t1 + t2), st.a, st.b, st.c, w32 (st.d + t1), st.e, st.f, st.g⟩

/-- Compress one 16-word block into the running hash. -/
def compressBlock (h0 : H8) (block : List Nat) : H8 :=
  let sched := (extendW 48 block.reverse).reverse
  let s := (K256.zip sched).foldl shaRound h0
  ⟨w32 (h0.a + s.a), w32 (h0.b + s.b), w32 (h0.c + s.c), w32 (h0.d + s.d),
   w32 (h0.e + s.e), w32 (h0.f + s.f), w32 (h0.g + s.g), w32 (h0.h + s.h)⟩

/-- SHA-256 of a byte list. -/
def sha256 (msg : List Nat) : H8 :=
  (chunk16 (toWords (shaPad msg))).foldl compressBlock Hinit

/-- Eight hex characters of one 32-bit word. -/
def hexWord (x : Nat) : List Char :=
  (List.range 8).map (fun i => nibbleChar ((x / 16 ^ (7 - i)) % 16))

/-- `hashlib.sha256(s.encode()).hexdigest()`: the 64-character lowercase
hex digest. -/
def shaHex (s : String) : String :=
  let d := sha256 (utf8Bytes s)
  String.mk (hexWord d.a ++ hexWord d.b ++ hexWord d.c ++ hexWord d.d ++
             hexWord d.e ++ hexWord d.f ++ hexWord d.g ++ hexWord d.h)

/-- The hash preimage of `Scroll._compute_hash` (scroll.py line 163):
the bare concatenation of the key and the canonical JSON of the data. -/
def hashContent (key : String) (d : Data) : String :=
  key ++ dumps d

/-- `Scroll._compute_hash` (scroll.py lines 161-164). -/
def computeHash (key : String) (d : Data) : String :=
  shaHex (hashContent key d)

/-! ### Metadata and wire format -/

/-- The `Meta` dataclass (scroll.py lines 33-57): 9S metadata plus the
computation-graph extensions. -/
structure Meta where
  schema : String
  version : ℤ
  hash : String
  time : ℤ
  prev : List String
  op : String
  influence : ℚ

/-- `Meta()` with all defaults; `time.time() * 1000` is the `now`
parameter. -/
def Meta.mkDefault (now : ℤ) : Meta :=
  ⟨"dojo/scroll", 1, "", now, [], "", 0⟩

/-- The wire dictionary for metadata: a field is `none` when the key is
absent from the Python dict. -/
structure WireMeta where
  schema : Option String
  version : Option ℤ
  hash : Option String
  time : Option ℤ
  prev : Option (List String)
  op : Option String
  influence : Option ℚ

/-- `Meta.to_dict` (scroll.py lines 59-74): the four standard fields are
always present; `prev`, `op`, `influence` only when truthy / non-zero. -/
def Meta.toDict (m : Meta) : WireMeta :=
  ⟨some m.schema, some m.version, some m.hash, some m.time,
   if m.prev.isEmpty then none else some m.prev,
   if m.op = "" then none else some m.op,
   if m.influence = 0 then none else some m.influence⟩

/-- `Meta.from_dict` (scroll.py lines 76-86); `now` is the
`time.time() * 1000` default used when the `time` key is absent. -/
def Meta.fromDict (w : WireMeta) (now : ℤ) : Meta :=
  ⟨w.schema.getD "dojo/scroll", w.version.getD 1, w.hash.getD "",
   w.time.getD now, w.prev.getD [], w.op.getD "", w.influence.getD 0⟩

/-! ### The envelope objects, heap and registry -/

/-- Identity of a live `Scroll` object (Python object identity). -/
abbrev ObjId := Nat

/-- The backward closure attached to a scroll by an operator.  Each
variant captures exactly what the Python closure captures: the operand
and child objects (by identity) and, for `pow`/`tanh`, the numeric
constants bound at creation time. -/
inductive BRule where
  | noop
  | add (selfId otherId outId : ObjId)
  | mul (selfId otherId outId : ObjId)
  | pow (selfId : ObjId) (n : ℤ) (outId : ObjId)
  | relu (selfId outId : ObjId)
  | tanh (selfId : ObjId) (t : ℚ) (outId : ObjId)

/-- A live `Scroll` object: key, payload, metadata and the attached
backward closure (`_backward`, a no-op by default). -/
structure ScrollObj where
  key : String
  data : Data
  meta : Meta
  rule : BRule

/-- The process state: the object heap (ids are indices, append-only)
and `Scroll._registry` (newest binding first, so lookup is
last-write-wins). -/
structure State where
  heap : List ScrollObj
  reg : List (String × ObjId)

/-- The empty process state (registry cleared, no live objects). -/
def State.empty : State := ⟨[], []⟩

/-- Fetch a live object by identity. -/
def getObj (st : State) (i : ObjId) : Option ScrollObj :=
  st.heap.get? i

/-- `Scroll._registry` lookup, used by `Scroll.read`. -/
def lookupReg (reg : List (String × ObjId)) (k : String) : Option ObjId :=
  (reg.find? (fun kv => kv.1 == k)).map (fun kv => kv.2)

/-- `Scroll.read(key)` (scroll.py lines 170-173): resolve a key to the
most recently registered object, or `None`. -/
def readObj (st : State) (k : String) : Option ScrollObj :=
  (lookupReg st.reg k).bind (fun i => getObj st i)

/-- Point update of one live object. -/
def State.modifyObj (st : State) (i : ObjId) (fn : ScrollObj → ScrollObj) : State :=
  match st.heap.get? i with
  | none => st
  | some o => ⟨st.heap.set i (fn o), st.reg⟩

/-- `scroll.meta.influence += dq`. -/
def State.addInf (st : State) (i : ObjId) (dq : ℚ) : State :=
  st.modifyObj i (fun o => { o with meta := { o.meta with influence := o.meta.influence + dq } })

/-- `scroll.meta.influence = q`. -/
def State.setInf (st : State) (i : ObjId) (q : ℚ) : State :=
  st.modifyObj i (fun o => { o with meta := { o.meta with influence := q } })

/-- `key_or_data.startswith("/")`: for the one-character pattern this is
exactly "the first character is `/`" (stated over the character list so
it computes structurally). -/
def startsWithSlash (s : String) : Bool :=
  match s.data with
  | [] => false
  | c :: _ => c == '/'

/-- `Scroll.__init__` (scroll.py lines 120-153).  `arg1`/`arg2` are
`key_or_data`/`data` (`none` = Python `None`; a Python string is
`Data.str`).  `metaArg` is the optional metadata.  `now` models
`time.time() * 1000`; `suffix` models the hash+timestamp tail of
`_generate_key`, so an auto-generated key is `"/scroll/" ++ suffix`.
The new object has hash computed when missing, a no-op `_backward`, and
is registered under its key (overwriting any previous binding). -/
def scrollInit (st : State) (arg1 arg2 : Option Data) (metaArg : Option Meta)
    (now : ℤ) (suffix : String) : State × ObjId :=
  let kd : String × Data :=
    match arg1 with
    | some (.str s) =>
        if startsWithSlash s then (s, arg2.getD .null)
        else ("/scroll/" ++ suffix, match arg2 with | none => .str s | some d => d)
    | _ => ("/scroll/" ++ suffix, match arg2 with | none => arg1.getD .null | some d => d)
  let m0 := metaArg.getD (Meta.mkDefault now)
  let m1 := if m0.hash = "" then { m0 with hash := computeHash kd.1 kd.2 } else m0
  let obj : ScrollObj := ⟨kd.1, kd.2, m1, .noop⟩
  let cid := st.heap.length
  (⟨st.heap ++ [obj], (kd.1, cid) :: st.reg⟩, cid)

/-- The wire dictionary of a whole scroll.  Every payload in the union
is JSON-serializable, so the `_is_json_safe` fallback to `str(data)`
never fires in this model. -/
structure WireScroll where
  key : String
  data : Data
  meta : WireMeta

/-- `Scroll.to_dict` (scroll.py lines 185-191). -/
def ScrollObj.toDict (o : ScrollObj) : WireScroll :=
  ⟨o.key, o.data, o.meta.toDict⟩

/-- `Scroll.from_dict` (scroll.py lines 193-197): parse the metadata and
call the constructor with the key string and payload.  A `null` payload
is the constructor's `data=None` (Python cannot distinguish an explicit
`None` argument from the default). -/
def scrollFromDict (st : State) (w : WireScroll) (now : ℤ) (suffix : String) : State × ObjId :=
  let m := Meta.fromDict w.meta now
  let a2 : Option Data := match w.data with | .null => none | d => some d
  scrollInit st (some (.str w.key)) a2 (some m) now suffix

/-! ### Computation-graph operators -/

namespace Scroll

/-- `Scroll._child` (scroll.py lines 211-219) followed by the caller's
`out._backward = …`: create the child scroll (schema `dojo/computed`,
parents and op recorded, auto-generated key) and attach its backward
rule. -/
def mkChild (st : State) (d : Data) (op : String) (parents : List String)
    (suffix : String) (now : ℤ) (rule : ObjId → BRule) : State × ObjId :=
  let meta : Meta := ⟨"dojo/computed", 1, "", now, parents, op, 0⟩
  let r := scrollInit st none (some d) (some meta) now suffix
  (r.1.modifyObj r.2 (fun o => { o with rule := rule r.2 }), r.2)

/-- `Scroll.__add__` on two scroll operands (scroll.py lines 221-244):
type-directed combine, then a child with op `"+"` and the additive
backward closure.  `none` models the `TypeError` Python raises in the
unsupported cases. -/
def add (st : State) (i1 i2 : ObjId) (suffix : String) (now : ℤ) :
    Option (State × ObjId) := do
  let o1 ← getObj st i1
  let o2 ← getObj st i2
  let r ← pyAdd o1.data o2.data
  some (mkChild st r "+" [o1.key, o2.key] suffix now (fun out => .add i1 i2 out))

/-- `Scroll.__mul__` on two scroll operands (scroll.py lines 249-269). -/
def mul (st : State) (i1 i2 : ObjId) (suffix : String) (now : ℤ) :
    Option (State × ObjId) := do
  let o1 ← getObj st i1
  let o2 ← getObj st i2
  let r ← pyMul o1.data o2.data
  some (mkChild st r "*" [o1.key, o2.key] suffix now (fun out => .mul i1 i2 out))

/-- `Scroll.__pow__` (scroll.py lines 274-281): `n` is a raw integer,
not a scroll. -/
def pow (st : State) (i : ObjId) (n : ℤ) (suffix : String) (now : ℤ) :
    Option (State × ObjId) := do
  let o ← getObj st i
  let r ← pyPow o.data n
  some (mkChild st r ("**" ++ toString n) [o.key] suffix now (fun out => .pow i n out))

/-- `Scroll.__neg__` (scroll.py lines 283-284): `self * -1`, which first
wraps the raw `-1` in a fresh auto-keyed scroll. -/
def neg (st : State) (i : ObjId) (wrapSuffix childSuffix : String) (now : ℤ) :
    Option (State × ObjId) :=
  let r := scrollInit st (some (.num (.i (-1)))) none none now wrapSuffix
  mul r.1 i r.2 childSuffix now

/-- `Scroll.__sub__` on a scroll operand (scroll.py lines 286-287):
`self + (-other)`. -/
def sub (st : State) (i1 i2 : ObjId) (wrapSuffix negSuffix addSuffix : String)
    (now : ℤ) : Option (State × ObjId) := do
  let r ← neg st i2 wrapSuffix negSuffix now
  add r.1 i1 r.2 addSuffix now

/-- `Scroll.__truediv__` on a scroll operand (scroll.py lines 289-290):
`self * (other ** -1)`. -/
def div (st : State) (i1 i2 : ObjId) (powSuffix mulSuffix : String) (now : ℤ) :
    Option (State × ObjId) := do
  let r ← pow st i2 (-1) powSuffix now
  mul r.1 i1 r.2 mulSuffix now

/-- `max(0, x)` as CPython computes it: `x` when strictly greater than
`0`, otherwise the first argument, the int `0`. -/
def reluData : Data → Data
  | .num v => if 0 < v.toQ then .num v else .num (.i 0)
  | d => d

/-- `Scroll.relu` (scroll.py lines 332-340).  Note that a child is
created for every payload type; only the result value is conditional on
numeric data. -/
def relu (st : State) (i : ObjId) (suffix : String) (now : ℤ) :
    Option (State × ObjId) := do
  let o ← getObj st i
  some (mkChild st (reluData o.data) "relu" [o.key] suffix now (fun out => .relu i out))

/-- `Scroll.tanh` (scroll.py lines 342-353), with `math.tanh` passed in
as the external function `tanhFn`.  Non-numeric data returns `self`
unchanged — no child, no registration. -/
def tanh (tanhFn : ℚ → ℚ) (st : State) (i : ObjId) (suffix : String) (now : ℤ) :
    Option (State × ObjId) := do
  let o ← getObj st i
  match o.data with
  | .num v =>
      let t := tanhFn v.toQ
      some (mkChild st (.num (.f t)) "tanh" [o.key] suffix now (fun out => .tanh i t out))
  | _ => some (st, i)

/-- `Scroll.reduce` (scroll.py lines 312-318).  The seed is used only
when `initial` is *truthy* (`if initial`), and an empty sequence with no
usable seed raises `TypeError` (`none`).  Non-sequence data returns
`self` unchanged. -/
def reduce (st : State) (i : ObjId) (fn : Data → Data → Data) (initial : Option Data)
    (suffix : String) (now : ℤ) : Option (State × ObjId) := do
  let o ← getObj st i
  match o.data with
  | .list xs =>
      let r ← match initial with
        | some i0 =>
            if i0.truthy then some (xs.foldl fn i0)
            else match xs with
              | [] => none
              | x :: rest => some (rest.foldl fn x)
        | none => match xs with
            | [] => none
            | x :: rest => some (rest.foldl fn x)
      some (mkChild st r "reduce" [o.key] suffix now (fun _ => .noop))
  | _ => some (st, i)

/-- A Python `get` argument: a string key or an integer index. -/
inductive PyKey where
  | s (k : String)
  | i (n : ℤ)

/-- Rendering of a `PyKey` for the child's op label. -/
def PyKey.render : PyKey → String
  | .s k => k
  | .i n => toString n

/-- `self.data[key]` for a list and an int index under the guard
`key < len(self.data)`: Python indexing accepts negative indices down to
`-len`, and raises `IndexError` (modelled `none`) below that. -/
def pyIndex (xs : List Data) (k : ℤ) : Option Data :=
  if 0 ≤ k then xs.get? k.toNat
  else if 0 ≤ (xs.length : ℤ) + k then xs.get? ((xs.length : ℤ) + k).toNat
  else none

/-- `Scroll.get` (scroll.py lines 320-326).  Dict: `.get`, missing key
becomes `None` data.  List with int index: element when
`key < len(data)`, else `None` data — but a negative index below `-len`
passes the guard and raises `IndexError` (`none` result).  Everything
else: a `None`-data child. -/
def get (st : State) (i : ObjId) (k : PyKey) (suffix : String) (now : ℤ) :
    Option (State × ObjId) := do
  let o ← getObj st i
  match o.data, k with
  | .dict kvs, .s key =>
      let v := ((kvs.find? (fun kv => kv.1 == key)).map (fun kv => kv.2)).getD .null
      some (mkChild st v ("." ++ key) [o.key] suffix now (fun _ => .noop))
  | .dict _, .i n =>
      some (mkChild st .null ("." ++ toString n) [o.key] suffix now (fun _ => .noop))
  | .list xs, .i n =>
      if n < (xs.length : ℤ) then do
        let v ← pyIndex xs n
        some (mkChild st v ("[" ++ toString n ++ "]") [o.key] suffix now (fun _ => .noop))
      else
        some (mkChild st .null ("[" ++ toString n ++ "]") [o.key] suffix now (fun _ => .noop))
  | _, _ =>
      some (mkChild st .null ("." ++ k.render) [o.key] suffix now (fun _ => .noop))

end Scroll

/-! ### Backward pass -/

/-- Evaluate one attached backward closure against the current state,
exactly as the Python closures read and mutate the captured objects
(scroll.py lines 238-242, 263-267, 277-279, 335-338, 348-350).
The `pow` closure recomputes `self.data ** (n-1)` at call time; its
zero-base negative-exponent `ZeroDivisionError` corner is unreachable
from the forward operators and is left as the `qzpow` junk value. -/
def runRule (st : State) (r : BRule) : State :=
  match r with
  | .noop => st
  | .add i1 i2 out =>
      match getObj st i1, getObj st out with
      | some o1, some oo =>
          if o1.data.isNum then
            (st.addInf i1 oo.meta.influence).addInf i2 oo.meta.influence
          else st
      | _, _ => st
  | .mul i1 i2 out =>
      match getObj st i1, getObj st i2, getObj st out with
      | some o1, some o2, some oo =>
          match o1.data.numQ, o2.data.numQ with
          | some q1, some q2 =>
              (st.addInf i1 (q2 * oo.meta.influence)).addInf i2 (q1 * oo.meta.influence)
          | _, _ => st
      | _, _, _ => st
  | .pow i n out =>
      match getObj st i, getObj st out with
      | some o, some oo =>
          match o.data.numQ with
          | some q => st.addInf i ((n : ℚ) * qzpow q (n - 1) * oo.meta.influence)
          | none => st
      | _, _ => st
  | .relu i out =>
      match getObj st out with
      | some oo =>
          match oo.data.numQ with
          | some qo => st.addInf i ((if 0 < qo then (1 : ℚ) else 0) * oo.meta.influence)
          | none => st
      | none => st
  | .tanh i t out =>
      match getObj st out with
      | some oo => st.addInf i ((1 - t * t) * oo.meta.influence)
      | none => st

/-- Accumulator of `Scroll.backward`'s topological build: the
key-indexed `visited` set and the post-order list of objects. -/
structure TopoAcc where
  visited : List String
  topo : List ObjId

/-- `build_topo` (scroll.py lines 364-371): depth-first over parent keys
resolved through the registry; a node is visited at most once (tracked
by key); the node is appended after all its resolvable ancestors.  The
`for prev_key in scroll.meta.prev` loop reads each parent through
`Scroll.read` and recurses only when the key resolves — an unresolvable
key is simply skipped.  The fuel only bounds recursion depth;
`Scroll.backward` supplies more fuel than there are registered keys, so
it never runs out. -/
def buildTopoAux : Nat → State → ObjId → TopoAcc → TopoAcc
  | 0, _, _, acc => acc
  | fuel + 1, st, sid, acc =>
      match getObj st sid with
      | none => acc
      | some obj =>
          if obj.key ∈ acc.visited then acc
          else
            let acc1 : TopoAcc := ⟨obj.key :: acc.visited, acc.topo⟩
            let acc2 := obj.meta.prev.foldl
              (fun a k =>
                match lookupReg st.reg k with
                | none => a
                | some pid => buildTopoAux fuel st pid a)
              acc1
            ⟨acc2.visited, acc2.topo ++ [sid]⟩

/-- The per-parent-key step of `build_topo`'s loop, named so that the
skip behaviour on unresolvable keys can be stated. -/
def topoStep (fuel : Nat) (st : State) (a : TopoAcc) (k : String) : TopoAcc :=
  match lookupReg st.reg k with
  | none => a
  | some pid => buildTopoAux fuel st pid a

/-- `Scroll.backward` (scroll.py lines 359-377): build the topological
order, seed the terminal's influence with `1.0` (plain assignment), and
run each node's backward closure in reverse order. -/
def Scroll.backward (st : State) (sid : ObjId) : State :=
  let acc := buildTopoAux (st.reg.length + 2) st sid ⟨[], []⟩
  let st1 := st.setInf sid 1
  acc.topo.reverse.foldl
    (fun s i =>
      match getObj s i with
      | some o => runRule s o.rule
      | none => s)
    st1

/-! ### Lineage -/

/-- One entry of `Scroll.lineage`'s history: key, op, a 30-character
data preview, current influence.  The preview is the canonical JSON of
the payload in this model (Python uses `str(data)`, which differs only
in quoting conventions and never affects the traversal shape). -/
structure LineEntry where
  key : String
  op : String
  preview : String
  influence : ℚ

/-- The recursive `trace` of `Scroll.lineage` (scroll.py lines 383-400):
preorder walk over parent keys resolved through the registry, bounded by
`depth`; a `None` argument (depth exhausted or unresolvable parent)
contributes nothing. -/
def traceLin (st : State) : Nat → Option ScrollObj → List LineEntry
  | 0, _ => []
  | _, none => []
  | d + 1, some obj =>
      ⟨obj.key, obj.meta.op, String.mk ((dumps obj.data).data.take 30), obj.meta.influence⟩ ::
        (obj.meta.prev.map (fun k => traceLin st d (readObj st k))).flatten

/-- `Scroll.lineage(depth)` (scroll.py lines 383-400). -/
def Scroll.lineage (st : State) (i : ObjId) (depth : Nat) : List LineEntry :=
  match getObj st i with
  | none => []
  | some obj => traceLin st depth (some obj)

/-! ### Auxiliary predicates and concrete scenarios -/

/-- Whether two payloads fall in the same row of the combine dispatch
table (both numeric, both text, both sequence, or both mapping). -/
def sameKind : Data → Data → Bool
  | .num _, .num _ => true
  | .str _, .str _ => true
  | .list _, .list _ => true
  | .dict _, .dict _ => true
  | _, _ => false

/-- `a = Scroll("/compute/a", 2.0)`. -/
def c1A : State × ObjId :=
  scrollInit State.empty (some (.str "/compute/a")) (some (.num (.f 2))) none 1000 "a0"

/-- `b = Scroll("/compute/b", 3.0)`. -/
def c1B : State × ObjId :=
  scrollInit c1A.1 (some (.str "/compute/b")) (some (.num (.f 3))) none 1001 "b0"

/-- `c = a * b + a ** 2; c.backward()`: the final state and `c`'s
identity. -/
def c1Run : Option (State × ObjId) := do
  let m ← Scroll.mul c1B.1 c1A.2 c1B.2 "m0" 1002
  let p ← Scroll.pow m.1 c1A.2 2 "p0" 1003
  let c ← Scroll.add p.1 m.2 p.2 "c0" 1004
  some (Scroll.backward c.1 c.2, c.2)

/-- Fresh leaves `a = 2.0`, `b = 3.0` and `c = a * b` for the repeated
backward pass. -/
def c10A : State × ObjId :=
  scrollInit State.empty (some (.str "/twice/a")) (some (.num (.f 2))) none 1 "a1"

/-- Second leaf of the repeated-backward scenario. -/
def c10B : State × ObjId :=
  scrollInit c10A.1 (some (.str "/twice/b")) (some (.num (.f 3))) none 2 "b1"

/-- `c = a * b`, then `c.backward()` once and a second time. -/
def c10Run : Option (State × State × ObjId) := do
  let m ← Scroll.mul c10B.1 c10A.2 c10B.2 "m1" 3
  let s1 := Scroll.backward m.1 m.2
  let s2 := Scroll.backward s1 m.2
  some (s1, s2, m.2)

/-- A scroll holding the text `"ab"`. -/
def c5Text : State × ObjId :=
  scrollInit State.empty (some (.str "/txt/ab")) (some (.str "ab")) none 1 "s0"

/-- A second scroll holding the text `"cd"`, in the same state. -/
def c5Text2 : State × ObjId :=
  scrollInit c5Text.1 (some (.str "/txt/cd")) (some (.str "cd")) none 1 "t0"

/-- `-Scroll("/txt/ab", "ab")`. -/
def c5NegRun : Option (State × ObjId) :=
  Scroll.neg c5Text2.1 c5Text.2 "w0" "n0" 2

/-- `Scroll("/txt/ab") - Scroll("/txt/cd")`, two text envelopes. -/
def c5SubRun : Option (State × ObjId) :=
  Scroll.sub c5Text2.1 c5Text.2 c5Text2.2 "w1" "n1" "d1" 2

/-- A scroll holding the text `"x"`, for the relu pass-through check. -/
def c6Text : State × ObjId :=
  scrollInit State.empty (some (.str "/txt/x")) (some (.str "x")) none 1 "s6"

/-- `Scroll("/txt/x", "x").relu()`. -/
def c6ReluRun : Option (State × ObjId) :=
  Scroll.relu c6Text.1 c6Text.2 "r6" 2

/-- A scroll holding the ordered sequence `[2, 3]`. -/
def c7List : State × ObjId :=
  scrollInit State.empty (some (.str "/seq/l")) (some (.list [.num (.i 2), .num (.i 3)])) none 1 "l0"

/-- `operator.mul` as a reducer callback on numeric payloads. -/
def mulFn : Data → Data → Data :=
  fun a b =>
    match a, b with
    | .num x, .num y => .num (x.mul y)
    | _, _ => .null

/-- `reduce(operator.mul, initial=0)` on `[2, 3]`. -/
def c7RunZero : Option (State × ObjId) :=
  Scroll.reduce c7List.1 c7List.2 mulFn (some (.num (.i 0))) "r0" 2

/-- `reduce(operator.mul, initial=5)` on `[2, 3]`. -/
def c7RunFive : Option (State × ObjId) :=
  Scroll.reduce c7List.1 c7List.2 mulFn (some (.num (.i 5))) "r1" 2

/-- `reduce(operator.mul)` on `[2, 3]`, no initial value. -/
def c7RunNone : Option (State × ObjId) :=
  Scroll.reduce c7List.1 c7List.2 mulFn none "r2" 2

/-- A scroll holding `[1, 2]` for the projection checks. -/
def c8List : State × ObjId :=
  scrollInit State.empty (some (.str "/seq/g")) (some (.list [.num (.i 1), .num (.i 2)])) none 1 "g0"

/-- A scroll holding the mapping `{"a": 1}`, in the same state. -/
def c8Dict : State × ObjId :=
  scrollInit c8List.1 (some (.str "/map/g")) (some (.dict [("a", .num (.i 1))])) none 1 "g1"

/-- The envelope `Scroll("/a", 55)`. -/
def c4E1 : State × ObjId :=
  scrollInit State.empty (some (.str "/a")) (some (.num (.i 55))) none 1 "x0"

/-- The envelope `Scroll("/a5", 5)`. -/
def c4E2 : State × ObjId :=
  scrollInit State.empty (some (.str "/a5")) (some (.num (.i 5))) none 2 "y0"

/-- A computed scroll whose metadata names a parent key `"/gone"` that
is absent from the registry. -/
def c9Orphan : State × ObjId :=
  scrollInit State.empty (some (.str "/orphan"))
    (some (.num (.i 1))) (some ⟨"dojo/computed", 1, "h", 0, ["/gone"], "+", 0⟩) 0 "o0"

/-! ### Helper lemmas -/

/-- The object a keyed construction (explicit metadata with a hash)
creates and registers. -/
theorem getObj_scrollInit_slash (st : State) (k : String) (a2 : Option Data) (m : Meta)
    (now : ℤ) (sfx : String) (hk : startsWithSlash k = true) (hm : m.hash ≠ "") :
    getObj (scrollInit st (some (.str k)) a2 (some m) now sfx).1
        (scrollInit st (some (.str k)) a2 (some m) now sfx).2
      = some ⟨k, a2.getD .null, m, .noop⟩ := by
  simp only [scrollInit, hk, if_true, Option.getD_some, if_neg hm, getObj]
  rw [List.get?_eq_getElem?]
  exact List.getElem?_concat_length _ _

/-- The object a keyed construction with no metadata argument creates:
default metadata with the computed content hash. -/
theorem getObj_scrollInit_slash_nometa (st : State) (k : String) (a2 : Option Data)
    (now : ℤ) (sfx : String) (hk : startsWithSlash k = true) :
    getObj (scrollInit st (some (.str k)) a2 none now sfx).1
        (scrollInit st (some (.str k)) a2 none now sfx).2
      = some ⟨k, a2.getD .null,
              ⟨"dojo/scroll", 1, computeHash k (a2.getD .null), now, [], "", 0⟩, .noop⟩ := by
  simp only [scrollInit, hk, if_true, Option.getD_none, Meta.mkDefault, if_pos rfl, getObj]
  rw [List.get?_eq_getElem?]
  exact List.getElem?_concat_length _ _

/-- Point lookup at the end of an appended heap. -/
theorem get?_concat {α : Type} (l : List α) (a : α) : (l ++ [a]).get? l.length = some a := by
  rw [List.get?_eq_getElem?]
  exact List.getElem?_concat_length _ _

/-- Point lookup after updating the just-appended heap slot. -/
theorem get?_set_concat {α : Type} (l : List α) (a b : α) :
    ((l ++ [a]).set l.length b).get? l.length = some b := by
  rw [List.get?_eq_getElem?, List.getElem?_set_eq_of_lt]
  simp

/-- The child object `_child` creates: auto key, `dojo/computed`
metadata with parents and op, computed hash, the supplied backward rule
applied to the fresh id. -/
theorem getObj_mkChild (st : State) (d : Data) (op : String) (ps : List String)
    (sfx : String) (now : ℤ) (rule : ObjId → BRule) :
    getObj (Scroll.mkChild st d op ps sfx now rule).1 (Scroll.mkChild st d op ps sfx now rule).2
      = some ⟨"/scroll/" ++ sfx, d,
              ⟨"dojo/computed", 1, computeHash ("/scroll/" ++ sfx) d, now, ps, op, 0⟩,
              rule st.heap.length⟩ := by
  rw [show Scroll.mkChild st d op ps sfx now rule
        = ((⟨st.heap ++ [⟨"/scroll/" ++ sfx, d,
              ⟨"dojo/computed", 1, computeHash ("/scroll/" ++ sfx) d, now, ps, op, 0⟩,
              .noop⟩], ("/scroll/" ++ sfx, st.heap.length) :: st.reg⟩ : State).modifyObj
                st.heap.length
                (fun o => { o with rule := rule st.heap.length }),
           st.heap.length)
      from rfl]
  simp only [State.modifyObj, get?_concat, getObj, get?_set_concat]

/-- A child's id is the previous heap size. -/
theorem mkChild_id (st : State) (d : Data) (op : String) (ps : List String)
    (sfx : String) (now : ℤ) (rule : ObjId → BRule) :
    (Scroll.mkChild st d op ps sfx now rule).2 = st.heap.length := rfl

/-- `getObj_mkChild` with the child id spelled as the previous heap
size. -/
theorem getObj_mkChild_len (st : State) (d : Data) (op : String) (ps : List String)
    (sfx : String) (now : ℤ) (rule : ObjId → BRule) :
    getObj (Scroll.mkChild st d op ps sfx now rule).1 st.heap.length
      = some ⟨"/scroll/" ++ sfx, d,
              ⟨"dojo/computed", 1, computeHash ("/scroll/" ++ sfx) d, now, ps, op, 0⟩,
              rule st.heap.length⟩ := by
  rw [← mkChild_id st d op ps sfx now rule]
  exact getObj_mkChild st d op ps sfx now rule

/-- Creating a child grows the heap by exactly one object. -/
theorem mkChild_heap_length (st : State) (d : Data) (op : String) (ps : List String)
    (sfx : String) (now : ℤ) (rule : ObjId → BRule) :
    (Scroll.mkChild st d op ps sfx now rule).1.heap.length = st.heap.length + 1 := by
  simp [Scroll.mkChild, scrollInit, State.modifyObj]

/-- Metadata serialization round-trips exactly, reconstructing the
omitted default fields. -/
theorem fromDict_toDict (m : Meta) (now : ℤ) : Meta.fromDict (Meta.toDict m) now = m := by
  obtain ⟨s, v, h, t, p, o, i⟩ := m
  simp only [Meta.toDict, Meta.fromDict]
  split_ifs <;> simp_all [List.isEmpty_iff]

/-- The hex digest is never the empty string. -/
theorem shaHex_ne_empty (s : String) : shaHex s ≠ "" := by
  unfold shaHex
  intro h
  have h' := congrArg String.data h
  simp only [String.data] at h'
  simp [hexWord] at h'

/-- Auto-generated keys live under the reserved `/scroll/` prefix, so
they start with the path separator. -/
theorem startsWithSlash_auto (sfx : String) : startsWithSlash ("/scroll/" ++ sfx) = true := by
  have h : ("/scroll/" ++ sfx).data = "/scroll/".data ++ sfx.data := String.data_append _ _
  simp [startsWithSlash, h]

/-- Appending to the heap preserves existing lookups. -/
theorem get?_append_some {α : Type} {l : List α} {i : Nat} {a : α}
    (h : l.get? i = some a) (l2 : List α) : (l ++ l2).get? i = some a := by
  obtain ⟨hlt, -⟩ := List.get?_eq_some.mp h
  rw [List.get?_eq_getElem?] at *
  rw [List.getElem?_append_left hlt]
  exact h

/-- Appending and then updating the fresh slot preserves existing
lookups. -/
theorem get?_append_set_some {α : Type} {l : List α} {i : Nat} {a : α}
    (h : l.get? i = some a) (b c : α) :
    ((l ++ [b]).set l.length c).get? i = some a := by
  obtain ⟨hlt, -⟩ := List.get?_eq_some.mp h
  rw [List.get?_eq_getElem?]
  rw [List.getElem?_set_ne (by omega)]
  rw [List.getElem?_append_left hlt]
  rw [List.get?_eq_getElem?] at h
  exact h

/-- Constructing any scroll preserves existing object lookups (the heap
is append-only). -/
theorem getObj_scrollInit_preserve (st : State) (a1 a2 : Option Data) (m : Option Meta)
    (now : ℤ) (sfx : String) {i : ObjId} {o : ScrollObj} (h : getObj st i = some o) :
    getObj (scrollInit st a1 a2 m now sfx).1 i = some o :=
  get?_append_some h _

/-- Creating a child preserves existing object lookups. -/
theorem getObj_mkChild_preserve (st : State) (d : Data) (op : String) (ps : List String)
    (sfx : String) (now : ℤ) (rule : ObjId → BRule) {i : ObjId} {o : ScrollObj}
    (h : getObj st i = some o) :
    getObj (Scroll.mkChild st d op ps sfx now rule).1 i = some o := by
  rw [show Scroll.mkChild st d op ps sfx now rule
        = ((⟨st.heap ++ [⟨"/scroll/" ++ sfx, d,
              ⟨"dojo/computed", 1, computeHash ("/scroll/" ++ sfx) d, now, ps, op, 0⟩,
              .noop⟩], ("/scroll/" ++ sfx, st.heap.length) :: st.reg⟩ : State).modifyObj
                st.heap.length
                (fun o2 => { o2 with rule := rule st.heap.length }),
           st.heap.length)
      from rfl]
  simp only [State.modifyObj, get?_concat, getObj]
  exact get?_append_set_some h _ _

/-! ### Theorems -/

/-- C1: for leaf envelopes `a = 2.0` and `b = 3.0`, building
`c = a * b + a ** 2` and running the backward pass from `c` yields
`c.data = 10.0`, `a.influence = 7.0` (the `a*b` path contributes
`b.data = 3` and the `a**2` path contributes `2*a.data = 4`), and
`b.influence = 2.0`. -/
theorem backward_pass_c1 :
    (c1Run.map fun r =>
      ((getObj r.1 r.2).map (fun o => o.data),
       (getObj r.1 c1A.2).map (fun o => o.meta.influence),
       (getObj r.1 c1B.2).map (fun o => o.meta.influence)))
    = some (some (.num (.f 10)), some 7, some 2) := by
  rfl

/-- C10: the backward pass is not idempotent.  For `c = a * b` with
`a = 2.0`, `b = 3.0`, the first pass leaves `a.influence = 3`,
`b.influence = 2`; a second `c.backward()` only re-seeds the terminal
(`c.influence = 1.0` again) and accumulates on the leaves, leaving
`a.influence = 6 = 2 * b.data` and `b.influence = 4 = 2 * a.data`. -/
theorem backward_not_idempotent :
    (c10Run.map fun r =>
      ((getObj r.1 c10A.2).map (fun o => o.meta.influence),
       (getObj r.1 c10B.2).map (fun o => o.meta.influence),
       (getObj r.2.1 c10A.2).map (fun o => o.meta.influence),
       (getObj r.2.1 c10B.2).map (fun o => o.meta.influence),
       (getObj r.2.1 r.2.2).map (fun o => o.meta.influence)))
    = some (some 3, some 2, some 6, some 4, some 1) := by
  rfl

/-- C7: `reduce` ignores a falsy initial value.  On the sequence
`[2, 3]` with `fn = operator.mul`, the code returns `6` for
`initial = 0` (the claim requires the seeded fold, `0`), `30` for the
truthy `initial = 5`, and `6` with no initial value — so `initial = 0`
behaves exactly like the absent-initial case, contradicting the claim
that any supplied initial value seeds the fold. -/
theorem reduce_falsy_initial_bug :
    (c7RunZero.map fun r => (getObj r.1 r.2).map (fun o => o.data)) = some (some (.num (.i 6)))
    ∧ (c7RunFive.map fun r => (getObj r.1 r.2).map (fun o => o.data)) = some (some (.num (.i 30)))
    ∧ (c7RunNone.map fun r => (getObj r.1 r.2).map (fun o => o.data)) = some (some (.num (.i 6)))
    ∧ Data.num (.i 6) ≠ Data.num (.i 0) := by
  refine ⟨rfl, rfl, rfl, ?_⟩
  intro h
  simp at h

/-- C8: `get` raises on negative out-of-range indices.  On the sequence
`[1, 2]`: index `-5` passes the `key < len` guard and raises
`IndexError` (`none`), contradicting the never-raises claim; index `-1`
returns the element `2`; index `5` returns absent-as-data; a missing
mapping key returns absent-as-data; a present mapping key returns its
value. -/
theorem get_negative_index_bug :
    Scroll.get c8Dict.1 c8List.2 (.i (-5)) "p0" 2 = none
    ∧ ((Scroll.get c8Dict.1 c8List.2 (.i (-1)) "p1" 2).map
        (fun r => (getObj r.1 r.2).map (fun o => o.data))) = some (some (.num (.i 2)))
    ∧ ((Scroll.get c8Dict.1 c8List.2 (.i 5) "p2" 2).map
        (fun r => (getObj r.1 r.2).map (fun o => o.data))) = some (some .null)
    ∧ ((Scroll.get c8Dict.1 c8Dict.2 (.s "b") "p3" 2).map
        (fun r => (getObj r.1 r.2).map (fun o => o.data))) = some (some .null)
    ∧ ((Scroll.get c8Dict.1 c8Dict.2 (.s "a") "p4" 2).map
        (fun r => (getObj r.1 r.2).map (fun o => o.data))) = some (some (.num (.i 1))) :=
  ⟨rfl, rfl, rfl, rfl, rfl⟩

/-- C2: the combine operator `+` on two envelopes: arithmetic sum for
numerics, concatenation for texts, order-preserving concatenation for
sequences, right-biased merge for mappings; every cross-kind
combination (in particular numeric + mapping) raises `TypeError`
(modelled `none`) rather than coercing, and scaling a mapping by a
numeric under `*` likewise fails; at the envelope level, `__add__`
produces a child carrying exactly the dispatched result and fails
exactly when the dispatch fails. -/
theorem combine_scale_table :
    (∀ x y : NumV, pyAdd (.num x) (.num y) = some (.num (x.add y)))
    ∧ (∀ a b : String, pyAdd (.str a) (.str b) = some (.str (a ++ b)))
    ∧ (∀ a b : List Data, pyAdd (.list a) (.list b) = some (.list (a ++ b)))
    ∧ (∀ a b : List (String × Data), pyAdd (.dict a) (.dict b) = some (.dict (dictMerge a b)))
    ∧ (∀ d1 d2 : Data, sameKind d1 d2 = false → pyAdd d1 d2 = none)
    ∧ (∀ (v : NumV) (kvs : List (String × Data)),
        pyMul (.dict kvs) (.num v) = none ∧ pyMul (.num v) (.dict kvs) = none)
    ∧ (∀ (st : State) (i1 i2 : ObjId) (o1 o2 : ScrollObj) (sfx : String) (now : ℤ),
        getObj st i1 = some o1 → getObj st i2 = some o2 →
        (Scroll.add st i1 i2 sfx now).map (fun r => (getObj r.1 r.2).map (fun o => o.data))
          = (pyAdd o1.data o2.data).map (fun r => some r)) := by
  refine ⟨fun x y => rfl, fun a b => rfl, fun a b => rfl, fun a b => rfl, ?_, ?_, ?_⟩
  · intro d1 d2 h
    cases d1 <;> cases d2 <;> first
      | rfl
      | simp [sameKind] at h
  · intro v kvs
    cases v <;> exact ⟨rfl, rfl⟩
  · intro st i1 i2 o1 o2 sfx now h1 h2
    simp only [Scroll.add, h1, h2, Option.bind_some, Option.some_bind, bind, Option.bind]
    cases hp : pyAdd o1.data o2.data with
    | none => rfl
    | some r => simp [getObj_mkChild]

/-- C2 witness: the table at concrete inputs — a numeric combined with
a mapping and a mapping scaled by a numeric fail, and a concrete
envelope-level addition of two sequences produces the dispatched
concatenation. -/
theorem combine_scale_table_witness :
    pyAdd (.num (.i 1)) (.dict [("k", .null)]) = none
    ∧ pyMul (.dict [("k", .null)]) (.num (.i 2)) = none
    ∧ pyMul (.num (.f 2)) (.dict [("k", .null)]) = none
    ∧ ((Scroll.add c8List.1 c8List.2 c8List.2 "w2" 1).map
        (fun r => (getObj r.1 r.2).map (fun o => o.data)))
      = (pyAdd (.list [.num (.i 1), .num (.i 2)]) (.list [.num (.i 1), .num (.i 2)])).map
          (fun r => some r) := by
  obtain ⟨-, -, -, -, h5, h6, h7⟩ := combine_scale_table
  exact ⟨h5 _ _ rfl, (h6 (.i 2) [("k", .null)]).1, (h6 (.f 2) [("k", .null)]).2,
         h7 c8List.1 c8List.2 c8List.2 _ _ "w2" 1 rfl rfl⟩

/-- C3: serialization round-trip.  Metadata round-trips exactly for
every metadata record (defaults reconstructed when omitted); a whole
envelope whose key is a path (leading `/`) and whose hash is non-empty
— postconditions the constructor establishes for every envelope, as the
last conjunct shows — is reproduced by `from_dict(to_dict(e))` with the
same key, data, and full metadata, including non-default `prev`, `op`
and `influence`. -/
theorem wire_roundtrip :
    (∀ (m : Meta) (now : ℤ), Meta.fromDict (Meta.toDict m) now = m)
    ∧ (∀ (o : ScrollObj), startsWithSlash o.key = true → o.meta.hash ≠ "" →
        ∀ (st : State) (now : ℤ) (sfx : String),
          (getObj (scrollFromDict st o.toDict now sfx).1
              (scrollFromDict st o.toDict now sfx).2).map
            (fun o2 => (o2.key, o2.data, o2.meta))
          = some (o.key, o.data, o.meta))
    ∧ (∀ (st : State) (a1 a2 : Option Data) (mArg : Option Meta) (now : ℤ) (sfx : String)
        (o' : ScrollObj),
        getObj (scrollInit st a1 a2 mArg now sfx).1 (scrollInit st a1 a2 mArg now sfx).2
          = some o' →
        o'.meta.hash ≠ "" ∧ startsWithSlash o'.key = true) := by
  refine ⟨fromDict_toDict, ?_, ?_⟩
  · intro o h1 h2 st now sfx
    show (getObj (scrollInit st (some (.str o.key))
            (match o.data with | .null => none | d => some d)
            (some (Meta.fromDict o.meta.toDict now)) now sfx).1
          (scrollInit st (some (.str o.key))
            (match o.data with | .null => none | d => some d)
            (some (Meta.fromDict o.meta.toDict now)) now sfx).2).map
          (fun o2 => (o2.key, o2.data, o2.meta))
        = some (o.key, o.data, o.meta)
    rw [fromDict_toDict]
    rw [getObj_scrollInit_slash st o.key _ o.meta now sfx h1 h2]
    cases hd : o.data <;> simp
  · intro st a1 a2 mArg now sfx o' h
    have hobj : ∀ (key : String) (d : Data) (m0 : Meta),
        (startsWithSlash key = true) →
        getObj (⟨st.heap ++ [⟨key, d,
            (if m0.hash = "" then { m0 with hash := computeHash key d } else m0), .noop⟩],
          (key, st.heap.length) :: st.reg⟩ : State) st.heap.length = some o' →
        o'.meta.hash ≠ "" ∧ startsWithSlash o'.key = true := by
      intro key d m0 hk hh
      rw [getObj, get?_concat] at hh
      cases hh
      refine ⟨?_, hk⟩
      by_cases hm : m0.hash = ""
      · simpa [hm] using shaHex_ne_empty (hashContent key d)
      · simp [hm]
    revert h
    show getObj (scrollInit st a1 a2 mArg now sfx).1 (scrollInit st a1 a2 mArg now sfx).2
          = some o' → _
    unfold scrollInit
    match a1 with
    | none => exact hobj _ _ _ (startsWithSlash_auto sfx)
    | some (.num v) => exact hobj _ _ _ (startsWithSlash_auto sfx)
    | some (.list xs) => exact hobj _ _ _ (startsWithSlash_auto sfx)
    | some (.dict kvs) => exact hobj _ _ _ (startsWithSlash_auto sfx)
    | some .null => exact hobj _ _ _ (startsWithSlash_auto sfx)
    | some (.str s) =>
      by_cases hs : startsWithSlash s = true
      · simpa [hs] using hobj _ _ _ hs
      · simpa [hs] using hobj _ _ _ (startsWithSlash_auto sfx)

/-- C3 witness: a concrete envelope with non-default lineage metadata
(`prev`, `op`, non-zero `influence`) survives the round-trip with all
fields intact, and a concrete construction satisfies the
postconditions. -/
theorem wire_roundtrip_witness :
    Meta.fromDict (Meta.toDict ⟨"dojo/computed", 3, "h3", 77, ["/p1", "/p2"], "+", 5⟩) 0
      = ⟨"dojo/computed", 3, "h3", 77, ["/p1", "/p2"], "+", 5⟩
    ∧ ((getObj (scrollFromDict State.empty
          (ScrollObj.toDict ⟨"/w", .num (.i 9),
            ⟨"dojo/computed", 3, "h3", 77, ["/p1", "/p2"], "+", 5⟩, .noop⟩) 0 "w3").1
        (scrollFromDict State.empty
          (ScrollObj.toDict ⟨"/w", .num (.i 9),
            ⟨"dojo/computed", 3, "h3", 77, ["/p1", "/p2"], "+", 5⟩, .noop⟩) 0 "w3").2).map
        (fun o2 => (o2.key, o2.data, o2.meta)))
      = some ("/w", .num (.i 9), ⟨"dojo/computed", 3, "h3", 77, ["/p1", "/p2"], "+", 5⟩)
    ∧ (∀ o', getObj c4E1.1 c4E1.2 = some o' → o'.meta.hash ≠ "" ∧ startsWithSlash o'.key = true) := by
  obtain ⟨h1, h2, h3⟩ := wire_roundtrip
  refine ⟨h1 _ 0, h2 ⟨"/w", .num (.i 9), _, .noop⟩ rfl (by decide) State.empty 0 "w3", ?_⟩
  intro o' h
  exact h3 State.empty _ _ _ 1 "x0" o' h

/-- C4 counterexample: two envelopes constructed with a different key
and different data (`("/a", 55)` and `("/a5", 5)`) receive the
*identical* content hash with certainty, because the hash preimage is
the bare concatenation of key and canonical JSON (`"/a55"` in both
cases). -/
theorem hash_collision_counterexample :
    (getObj c4E1.1 c4E1.2).map (fun o => o.meta.hash)
      = (getObj c4E2.1 c4E2.2).map (fun o => o.meta.hash)
    ∧ ("/a" : String) ≠ "/a5"
    ∧ Data.num (.i 55) ≠ Data.num (.i 5) := by
  refine ⟨?_, by decide, ?_⟩
  · have h : hashContent "/a" (.num (.i 55)) = hashContent "/a5" (.num (.i 5)) := rfl
    show some (computeHash "/a" (.num (.i 55))) = some (computeHash "/a5" (.num (.i 5)))
    unfold computeHash
    exact congrArg (fun s => some (shaHex s)) h
  · intro h
    simp at h

/-- C4 (amended): the content hash of a constructed envelope is a
deterministic function of key and data alone — independent of
construction time, prior state, and key-generation suffix — and
changing the key alone (data fixed) always changes the hash preimage
`key ++ dumps(data)`; but because the preimage is a bare concatenation,
distinct (key, data) pairs can collide with certainty (see the
counterexample), so "different key or different data" does not imply a
different hash. -/
theorem hash_key_data_determinism :
    (∀ (st : State) (t : ℤ) (sfx : String) (k : String) (d : Data),
        startsWithSlash k = true →
        (getObj (scrollInit st (some (.str k)) (some d) none t sfx).1
            (scrollInit st (some (.str k)) (some d) none t sfx).2).map (fun o => o.meta.hash)
          = some (computeHash k d))
    ∧ (∀ (k k2 : String) (d : Data), k ≠ k2 → hashContent k d ≠ hashContent k2 d) := by
  constructor
  · intro st t sfx k d hk
    rw [getObj_scrollInit_slash_nometa st k (some d) t sfx hk]
    rfl
  · intro k k2 d hne h
    apply hne
    unfold hashContent at h
    have h2 := congrArg String.data h
    rw [String.data_append, String.data_append] at h2
    exact String.ext (List.append_cancel_right h2)

/-- C4 witness: the determinism equation at a concrete key and datum
(two different construction times and suffixes give the same
`computeHash` value), and a concrete key-only change altering the
preimage. -/
theorem hash_key_data_determinism_witness :
    ((getObj (scrollInit State.empty (some (.str "/w1")) (some (.num (.i 3))) none 10 "za").1
        (scrollInit State.empty (some (.str "/w1")) (some (.num (.i 3))) none 10 "za").2).map
      (fun o => o.meta.hash)) = some (computeHash "/w1" (.num (.i 3)))
    ∧ ((getObj (scrollInit c4E1.1 (some (.str "/w1")) (some (.num (.i 3))) none 99 "zb").1
        (scrollInit c4E1.1 (some (.str "/w1")) (some (.num (.i 3))) none 99 "zb").2).map
      (fun o => o.meta.hash)) = some (computeHash "/w1" (.num (.i 3)))
    ∧ hashContent "/w1" (.num (.i 3)) ≠ hashContent "/w2" (.num (.i 3)) := by
  obtain ⟨h1, h2⟩ := hash_key_data_determinism
  exact ⟨h1 State.empty 10 "za" "/w1" (.num (.i 3)) rfl,
         h1 c4E1.1 99 "zb" "/w1" (.num (.i 3)) rfl,
         h2 "/w1" "/w2" (.num (.i 3)) (by decide)⟩

/-- C5 counterexample: negating a text envelope does not fail — it
multiplies by `-1`, which for Python strings is repetition, producing
the empty text; consequently subtracting two text envelopes also
succeeds, returning the left operand's text unchanged. -/
theorem neg_text_counterexample :
    (c5NegRun.map fun r => (getObj r.1 r.2).map (fun o => o.data)) = some (some (.str ""))
    ∧ (c5SubRun.map fun r => (getObj r.1 r.2).map (fun o => o.data)) = some (some (.str "ab"))
    ∧ c5NegRun.isSome = true
    ∧ c5SubRun.isSome = true :=
  ⟨rfl, rfl, rfl, rfl⟩

/-- C5 (amended): power and division are numeric-only — `** n` on
non-numeric data and division with a non-numeric divisor, or a
non-numeric dividend and a non-zero numeric divisor, raise `TypeError`
(`none`); negation of a mapping or `None` likewise fails; but negation
of a text or an ordered sequence does *not* fail — it is multiplication
by the int `-1`, i.e. repetition, yielding the empty text/sequence —
and consequently subtraction of two texts succeeds, returning the left
operand's text. -/
theorem derived_ops_numeric :
    (∀ (d : Data) (n : ℤ), d.isNum = false → pyPow d n = none)
    ∧ (∀ (st : State) (i : ObjId) (o : ScrollObj) (n : ℤ) (sfx : String) (now : ℤ),
        getObj st i = some o → o.data.isNum = false → Scroll.pow st i n sfx now = none)
    ∧ (∀ (st : State) (i : ObjId) (o : ScrollObj) (s1 s2 : String) (now : ℤ) (t : String),
        getObj st i = some o → o.data = .str t →
        (Scroll.neg st i s1 s2 now).map (fun r => (getObj r.1 r.2).map (fun o2 => o2.data))
          = some (some (.str "")))
    ∧ (∀ (st : State) (i : ObjId) (o : ScrollObj) (s1 s2 : String) (now : ℤ) (xs : List Data),
        getObj st i = some o → o.data = .list xs →
        (Scroll.neg st i s1 s2 now).map (fun r => (getObj r.1 r.2).map (fun o2 => o2.data))
          = some (some (.list [])))
    ∧ (∀ (st : State) (i : ObjId) (o : ScrollObj) (s1 s2 : String) (now : ℤ)
        (kvs : List (String × Data)),
        getObj st i = some o → o.data = .dict kvs → Scroll.neg st i s1 s2 now = none)
    ∧ (∀ (st : State) (i : ObjId) (o : ScrollObj) (s1 s2 : String) (now : ℤ),
        getObj st i = some o → o.data = .null → Scroll.neg st i s1 s2 now = none)
    ∧ (∀ (st : State) (i1 i2 : ObjId) (o1 o2 : ScrollObj) (s1 s2 s3 : String) (now : ℤ)
        (t1 t2 : String),
        getObj st i1 = some o1 → getObj st i2 = some o2 →
        o1.data = .str t1 → o2.data = .str t2 →
        (Scroll.sub st i1 i2 s1 s2 s3 now).map (fun r => (getObj r.1 r.2).map (fun o2 => o2.data))
          = some (some (.str t1)))
    ∧ (∀ (st : State) (i1 i2 : ObjId) (o2 : ScrollObj) (s1 s2 : String) (now : ℤ),
        getObj st i2 = some o2 → o2.data.isNum = false →
        Scroll.div st i1 i2 s1 s2 now = none)
    ∧ (∀ (st : State) (i1 i2 : ObjId) (o1 o2 : ScrollObj) (s1 s2 : String) (now : ℤ) (v : NumV),
        getObj st i1 = some o1 → getObj st i2 = some o2 →
        o1.data.isNum = false → o2.data = .num v → v.toQ ≠ 0 →
        Scroll.div st i1 i2 s1 s2 now = none) := by
  have hpow : ∀ (d : Data) (n : ℤ), d.isNum = false → pyPow d n = none := by
    intro d n h
    cases d <;> first | rfl | simp [Data.isNum] at h
  have hpowS : ∀ (st : State) (i : ObjId) (o : ScrollObj) (n : ℤ) (sfx : String) (now : ℤ),
      getObj st i = some o → o.data.isNum = false → Scroll.pow st i n sfx now = none := by
    intro st i o n sfx now h1 h2
    simp only [Scroll.pow, h1, Option.bind_some, Option.some_bind, bind, Option.bind,
      hpow o.data n h2]
  -- the wrapped `Scroll(-1)` constant created by `__neg__`
  have hwrap : ∀ (st : State) (now : ℤ) (s1 : String),
      getObj (scrollInit st (some (.num (.i (-1)))) none none now s1).1
          (scrollInit st (some (.num (.i (-1)))) none none now s1).2
        = some ⟨"/scroll/" ++ s1, .num (.i (-1)),
                ⟨"dojo/scroll", 1, computeHash ("/scroll/" ++ s1) (.num (.i (-1))), now, [], "", 0⟩,
                .noop⟩ := by
    intro st now s1
    exact get?_concat _ _
  -- `self * -1` on a text operand: the repetition child with empty text
  have hnegStr : ∀ (st : State) (i : ObjId) (o : ScrollObj) (s1 s2 : String) (now : ℤ)
      (t : String), getObj st i = some o → o.data = .str t →
      Scroll.neg st i s1 s2 now
        = some (Scroll.mkChild (scrollInit st (some (.num (.i (-1)))) none none now s1).1
            (.str "") "*" [o.key, "/scroll/" ++ s1] s2 now
            (fun out => .mul i (scrollInit st (some (.num (.i (-1)))) none none now s1).2 out)) := by
    intro st i o s1 s2 now t h e
    have hW := hwrap st now s1
    have hWi := getObj_scrollInit_preserve st (some (.num (.i (-1)))) none none now s1 h
    simp only [Scroll.neg, Scroll.mul, hWi, hW, Option.bind_some, Option.some_bind, bind,
      Option.bind, e, pyMul]
    rfl
  refine ⟨hpow, hpowS, ?_, ?_, ?_, ?_, ?_, ?_, ?_⟩
  · intro st i o s1 s2 now t h e
    rw [hnegStr st i o s1 s2 now t h e]
    simp [getObj_mkChild]
  · intro st i o s1 s2 now xs h e
    have hW := hwrap st now s1
    have hWi := getObj_scrollInit_preserve st (some (.num (.i (-1)))) none none now s1 h
    simp only [Scroll.neg, Scroll.mul, hWi, hW, Option.bind_some, Option.some_bind, bind,
      Option.bind, e, pyMul]
    simp [getObj_mkChild, listRepeat]
  · intro st i o s1 s2 now kvs h e
    have hW := hwrap st now s1
    have hWi := getObj_scrollInit_preserve st (some (.num (.i (-1)))) none none now s1 h
    simp only [Scroll.neg, Scroll.mul, hWi, hW, Option.bind_some, Option.some_bind, bind,
      Option.bind, e, pyMul]
  · intro st i o s1 s2 now h e
    have hW := hwrap st now s1
    have hWi := getObj_scrollInit_preserve st (some (.num (.i (-1)))) none none now s1 h
    simp only [Scroll.neg, Scroll.mul, hWi, hW, Option.bind_some, Option.some_bind, bind,
      Option.bind, e, pyMul]
  · intro st i1 i2 o1 o2 s1 s2 s3 now t1 t2 h1 h2 e1 e2
    simp only [Scroll.sub, hnegStr st i2 o2 s1 s2 now t2 h2 e2, Option.bind_some,
      Option.some_bind, bind, Option.bind]
    have h1' : getObj (Scroll.mkChild (scrollInit st (some (.num (.i (-1)))) none none now s1).1
        (.str "") "*" [o2.key, "/scroll/" ++ s1] s2 now
        (fun out => .mul i2 (scrollInit st (some (.num (.i (-1)))) none none now s1).2 out)).1 i1
        = some o1 :=
      getObj_mkChild_preserve _ _ _ _ _ _ _
        (getObj_scrollInit_preserve st (some (.num (.i (-1)))) none none now s1 h1)
    simp only [Scroll.add, h1', getObj_mkChild, Option.bind_some, Option.some_bind,
      bind, Option.bind, e1, pyAdd]
    simp [getObj_mkChild]
  · intro st i1 i2 o2 s1 s2 now h2 hnn
    simp only [Scroll.div, hpowS st i2 o2 (-1) s1 now h2 hnn, Option.bind, bind]
  · intro st i1 i2 o1 o2 s1 s2 now v h1 h2 hnn e2 hv
    have hpp : pyPow o2.data (-1) = some (.num (.f (qzpow v.toQ (-1)))) := by
      rw [e2]
      cases v with
      | i z =>
          have hz : ¬ z = 0 := by
            intro hz0
            apply hv
            simp [NumV.toQ, hz0]
          simp [pyPow, hz, NumV.toQ]
      | f q =>
          have hq : ¬ q = 0 := by simpa [NumV.toQ] using hv
          simp [pyPow, hq, NumV.toQ]
    simp only [Scroll.div, Scroll.pow, h2, Option.bind_some, Option.some_bind, bind,
      Option.bind, hpp]
    have h1' : getObj (Scroll.mkChild st (.num (.f (qzpow v.toQ (-1)))) ("**" ++ toString (-1 : ℤ))
        [o2.key] s1 now (fun out => .pow i2 (-1) out)).1 i1 = some o1 :=
      getObj_mkChild_preserve _ _ _ _ _ _ _ h1
    simp only [Scroll.mul, h1', getObj_mkChild, Option.bind_some, Option.some_bind, bind,
      Option.bind]
    cases ho : o1.data <;> simp [Data.isNum, ho] at hnn ⊢ <;> rfl

/-- C5 witness: the failing and non-failing cases at concrete
envelopes: `**2` on a text fails; negating a mapping fails; dividing by
a text fails; dividing a text by `2.0` fails; negating the concrete
text `"ab"` yields the empty text. -/
theorem derived_ops_numeric_witness :
    pyPow (.str "ab") 2 = none
    ∧ Scroll.pow c5Text2.1 c5Text.2 2 "pw" 3 = none
    ∧ Scroll.neg c8Dict.1 c8Dict.2 "nw" "nc" 3 = none
    ∧ Scroll.div c5Text2.1 c5Text.2 c5Text2.2 "dp" "dm" 3 = none
    ∧ (Scroll.neg c5Text2.1 c5Text.2 "w9" "n9" 3).map
        (fun r => (getObj r.1 r.2).map (fun o2 => o2.data)) = some (some (.str "")) := by
  obtain ⟨h1, h2, h3, -, h5, -, -, h8, -⟩ := derived_ops_numeric
  refine ⟨h1 (.str "ab") 2 rfl, h2 c5Text2.1 c5Text.2 _ 2 "pw" 3 rfl rfl, ?_, ?_, ?_⟩
  · exact h5 c8Dict.1 c8Dict.2
      ⟨"/map/g", .dict [("a", .num (.i 1))],
        ⟨"dojo/scroll", 1, computeHash "/map/g" (.dict [("a", .num (.i 1))]), 1, [], "", 0⟩,
        .noop⟩ "nw" "nc" 3 [("a", .num (.i 1))] rfl rfl
  · exact h8 c5Text2.1 c5Text.2 c5Text2.2 _ "dp" "dm" 3 rfl rfl
  · exact h3 c5Text2.1 c5Text.2 _ "w9" "n9" 3 _ rfl rfl

/-- C6 counterexample: `relu` on a non-numeric envelope (text `"x"`,
object id 0, sole heap entry) is not pass-through: it returns a *new*
child envelope (id 1) with its own auto-generated key, registered in
the namespace, carrying the unchanged data with op `"relu"`. -/
theorem relu_not_passthrough_counterexample :
    (c6ReluRun.map fun r =>
      (r.2, r.1.heap.length,
       (getObj r.1 r.2).map (fun o => (o.key, o.data, o.meta.op))))
    = some (1, 2, some ("/scroll/r6", .str "x", "relu"))
    ∧ c6Text.2 = 0
    ∧ c6Text.1.heap.length = 1 :=
  ⟨rfl, rfl, rfl⟩

/-- C6 (amended): `tanh` on non-numeric data is pass-through — it
returns the original envelope with the state untouched — but `relu` is
not: for every payload it creates and registers a new child (with the
unchanged data and op `"relu"` when non-numeric).  For numeric data,
`relu` yields `max(0, x)` (the int `0` when `x ≤ 0`) with backward
contribution `1 · out.influence` where the output is strictly positive
and `0` otherwise, and `tanh` yields the library value `t = tanh(x)`
with backward contribution `(1 - t²) · out.influence` (`math.tanh`
modelled as the arbitrary external function `tanhFn`). -/
theorem activation_behaviour :
    (∀ (st : State) (i : ObjId) (o : ScrollObj) (sfx : String) (now : ℤ),
        getObj st i = some o → o.data.isNum = false →
        (Scroll.relu st i sfx now).map (fun r =>
          (r.2, r.1.heap.length,
           (getObj r.1 r.2).map (fun o2 => (o2.key, o2.data, o2.meta.op))))
          = some (st.heap.length, st.heap.length + 1,
                  some ("/scroll/" ++ sfx, o.data, "relu")))
    ∧ (∀ (tanhFn : ℚ → ℚ) (st : State) (i : ObjId) (o : ScrollObj) (sfx : String) (now : ℤ),
        getObj st i = some o → o.data.isNum = false →
        Scroll.tanh tanhFn st i sfx now = some (st, i))
    ∧ (∀ (st : State) (i : ObjId) (o : ScrollObj) (v : NumV) (sfx : String) (now : ℤ),
        getObj st i = some o → o.data = .num v →
        (Scroll.relu st i sfx now).map (fun r =>
          (getObj r.1 r.2).map (fun o2 => (o2.data, o2.rule)))
          = some (some ((if 0 < v.toQ then Data.num v else .num (.i 0)),
                        .relu i st.heap.length)))
    ∧ (∀ (st : State) (i out : ObjId) (oo : ScrollObj) (q : ℚ),
        getObj st out = some oo → oo.data.numQ = some q →
        runRule st (.relu i out)
          = st.addInf i ((if 0 < q then (1 : ℚ) else 0) * oo.meta.influence))
    ∧ (∀ (tanhFn : ℚ → ℚ) (st : State) (i : ObjId) (o : ScrollObj) (v : NumV)
        (sfx : String) (now : ℤ),
        getObj st i = some o → o.data = .num v →
        (Scroll.tanh tanhFn st i sfx now).map (fun r =>
          (getObj r.1 r.2).map (fun o2 => (o2.data, o2.rule)))
          = some (some (.num (.f (tanhFn v.toQ)), .tanh i (tanhFn v.toQ) st.heap.length)))
    ∧ (∀ (st : State) (i out : ObjId) (t : ℚ) (oo : ScrollObj),
        getObj st out = some oo →
        runRule st (.tanh i t out)
          = st.addInf i ((1 - t * t) * oo.meta.influence)) := by
  refine ⟨?_, ?_, ?_, ?_, ?_, ?_⟩
  · intro st i o sfx now h hnn
    have hd : Scroll.reluData o.data = o.data := by
      cases ho : o.data
      · rw [ho] at hnn
        simp [Data.isNum] at hnn
      · rfl
      · rfl
      · rfl
      · rfl
    simp only [Scroll.relu, h, Option.bind_some, Option.some_bind, bind, Option.bind, hd]
    simp [getObj_mkChild_len, mkChild_id, mkChild_heap_length]
  · intro tanhFn st i o sfx now h hnn
    simp only [Scroll.tanh, h, Option.bind_some, Option.some_bind, bind, Option.bind]
    cases ho : o.data <;> first
      | rfl
      | simp [ho, Data.isNum] at hnn
  · intro st i o v sfx now h e
    simp only [Scroll.relu, h, Option.bind_some, Option.some_bind, bind, Option.bind, e,
      Scroll.reluData]
    simp [getObj_mkChild_len, mkChild_id]
  · intro st i out oo q h hq
    simp only [runRule, h, hq]
  · intro tanhFn st i o v sfx now h e
    simp only [Scroll.tanh, h, Option.bind_some, Option.some_bind, bind, Option.bind, e]
    simp [getObj_mkChild_len, mkChild_id]
  · intro st i out t oo h
    simp only [runRule, h]

/-- C6 witness: the amended behaviour at concrete inputs: `tanh` on the
text envelope returns it unchanged; `relu` on it creates a registered
child; `relu` on a numeric envelope computes `max(0, 2.0)` with its
backward rule, whose gradient contribution is `1 · influence`; `tanh`
computes the library value with gradient `1 - t²`. -/
theorem activation_behaviour_witness :
    Scroll.tanh (fun q => q) c6Text.1 c6Text.2 "h6" 2 = some (c6Text.1, c6Text.2)
    ∧ (c6ReluRun.map (fun r =>
        (r.2, r.1.heap.length,
         (getObj r.1 r.2).map (fun o2 => (o2.key, o2.data, o2.meta.op)))))
      = some (c6Text.1.heap.length, c6Text.1.heap.length + 1,
              some ("/scroll/r6", .str "x", "relu"))
    ∧ ((Scroll.relu c10A.1 c10A.2 "r7" 5).map (fun r =>
        (getObj r.1 r.2).map (fun o2 => (o2.data, o2.rule))))
      = some (some ((if 0 < ((2 : ℚ)) then Data.num (.f 2) else .num (.i 0)),
                    .relu c10A.2 c10A.1.heap.length))
    ∧ runRule c10A.1 (.relu 7 c10A.2)
      = c10A.1.addInf 7 ((if 0 < (2 : ℚ) then (1 : ℚ) else 0) * 0)
    ∧ ((Scroll.tanh (fun q => q + 1) c10A.1 c10A.2 "h7" 5).map (fun r =>
        (getObj r.1 r.2).map (fun o2 => (o2.data, o2.rule))))
      = some (some (.num (.f ((2 : ℚ) + 1)), .tanh c10A.2 ((2 : ℚ) + 1) c10A.1.heap.length))
    ∧ runRule c10A.1 (.tanh 7 (1 / 2) c10A.2)
      = c10A.1.addInf 7 ((1 - (1 / 2 : ℚ) * (1 / 2)) * 0) := by
  obtain ⟨h1, h2, h3, h4, h5, h6⟩ := activation_behaviour
  refine ⟨h2 (fun q => q) c6Text.1 c6Text.2
            ⟨"/txt/x", .str "x",
             ⟨"dojo/scroll", 1, computeHash "/txt/x" (.str "x"), 1, [], "", 0⟩, .noop⟩
            "h6" 2 rfl rfl,
          h1 c6Text.1 c6Text.2
            ⟨"/txt/x", .str "x",
             ⟨"dojo/scroll", 1, computeHash "/txt/x" (.str "x"), 1, [], "", 0⟩, .noop⟩
            "r6" 2 rfl rfl,
          h3 c10A.1 c10A.2 _ (.f 2) "r7" 5 rfl rfl,
          h4 c10A.1 7 c10A.2 _ 2 rfl rfl,
          h5 (fun q => q + 1) c10A.1 c10A.2 _ (.f 2) "h7" 5 rfl rfl,
          h6 c10A.1 7 c10A.2 (1 / 2) _ rfl⟩

/-- C9: an unresolvable parent key is treated as a missing/leaf
ancestor everywhere lineage is traversed.  The per-parent step of the
backward pass's topological build leaves the accumulator unchanged on
an unresolvable key; a node all of whose parent keys are unresolvable
is processed exactly like a leaf (visited once, appended post-order);
and the lineage trace contributes nothing for an unresolvable key and
reduces to the single node entry when no parent resolves.  All
traversal functions are total, so no `UnresolvedParent` condition can
surface as an error. -/
theorem unresolved_parent_skipped :
    (∀ (fuel : Nat) (st : State) (acc : TopoAcc) (k : String),
        lookupReg st.reg k = none → topoStep fuel st acc k = acc)
    ∧ (∀ (fuel : Nat) (st : State) (sid : ObjId) (obj : ScrollObj) (acc : TopoAcc),
        getObj st sid = some obj → obj.key ∉ acc.visited →
        (∀ k ∈ obj.meta.prev, lookupReg st.reg k = none) →
        buildTopoAux (fuel + 1) st sid acc = ⟨obj.key :: acc.visited, acc.topo ++ [sid]⟩)
    ∧ (∀ (st : State) (d : Nat) (k : String),
        lookupReg st.reg k = none → traceLin st d (readObj st k) = [])
    ∧ (∀ (st : State) (d : Nat) (obj : ScrollObj),
        (∀ k ∈ obj.meta.prev, lookupReg st.reg k = none) →
        traceLin st (d + 1) (some obj)
          = [⟨obj.key, obj.meta.op, String.mk ((dumps obj.data).data.take 30),
              obj.meta.influence⟩]) := by
  have hstep : ∀ (fuel : Nat) (st : State) (acc : TopoAcc) (k : String),
      lookupReg st.reg k = none → topoStep fuel st acc k = acc := by
    intro fuel st acc k h
    simp [topoStep, h]
  have hfold : ∀ (fuel : Nat) (st : State) (ks : List String),
      (∀ k ∈ ks, lookupReg st.reg k = none) → ∀ (a : TopoAcc),
      ks.foldl (fun a2 k =>
        match lookupReg st.reg k with
        | none => a2
        | some pid => buildTopoAux fuel st pid a2) a = a := by
    intro fuel st ks h
    induction ks with
    | nil => intro a; rfl
    | cons k ks ih =>
        intro a
        rw [List.foldl_cons]
        have hk := h k (List.mem_cons_self k ks)
        simp only [hk]
        exact ih (fun k2 hk2 => h k2 (List.mem_cons_of_mem k hk2)) a
  have htrace : ∀ (st : State) (d : Nat) (k : String),
      lookupReg st.reg k = none → traceLin st d (readObj st k) = [] := by
    intro st d k h
    have hr : readObj st k = none := by simp [readObj, h]
    rw [hr]
    cases d <;> rfl
  refine ⟨hstep, ?_, htrace, ?_⟩
  · intro fuel st sid obj acc h1 h2 h3
    simp only [buildTopoAux, h1, h2, if_false]
    rw [hfold fuel st obj.meta.prev h3]
  · intro st d obj h
    have hflat : ∀ (ks : List String), (∀ k ∈ ks, lookupReg st.reg k = none) →
        (ks.map (fun k => traceLin st d (readObj st k))).flatten = ([] : List LineEntry) := by
      intro ks hks
      induction ks with
      | nil => rfl
      | cons k ks ih =>
          simp only [List.map_cons, List.flatten_cons,
            htrace st d k (hks k (List.mem_cons_self k ks)), List.nil_append]
          exact ih (fun k2 hk2 => hks k2 (List.mem_cons_of_mem k hk2))
    simp only [traceLin, hflat obj.meta.prev h]

/-- C9 witness: a concrete scroll whose recorded parent `"/gone"` does
not resolve in the registry: the topological step skips it, the
backward build treats the node as a leaf, and the lineage trace of the
missing parent is empty while the node's own trace is its single
entry. -/
theorem unresolved_parent_skipped_witness :
    topoStep 5 c9Orphan.1 ⟨[], []⟩ "/gone" = ⟨[], []⟩
    ∧ buildTopoAux 3 c9Orphan.1 c9Orphan.2 ⟨[], []⟩ = ⟨["/orphan"], [c9Orphan.2]⟩
    ∧ traceLin c9Orphan.1 4 (readObj c9Orphan.1 "/gone") = []
    ∧ traceLin c9Orphan.1 4
        (some ⟨"/orphan", .num (.i 1), ⟨"dojo/computed", 1, "h", 0, ["/gone"], "+", 0⟩, .noop⟩)
      = [⟨"/orphan", "+", "1", 0⟩] := by
  obtain ⟨h1, h2, h3, h4⟩ := unresolved_parent_skipped
  have hall : ∀ k ∈ (⟨"/orphan", .num (.i 1),
      ⟨"dojo/computed", 1, "h", 0, ["/gone"], "+", 0⟩, .noop⟩ : ScrollObj).meta.prev,
      lookupReg c9Orphan.1.reg k = none := by
    intro k hk
    simp only [List.mem_singleton] at hk
    subst hk
    rfl
  refine ⟨h1 5 c9Orphan.1 ⟨[], []⟩ "/gone" rfl, ?_,
          h3 c9Orphan.1 4 "/gone" rfl, ?_⟩
  · exact h2 2 c9Orphan.1 c9Orphan.2
      ⟨"/orphan", .num (.i 1), ⟨"dojo/computed", 1, "h", 0, ["/gone"], "+", 0⟩, .noop⟩
      ⟨[], []⟩ rfl (by simp) hall
  · exact h4 c9Orphan.1 3
      ⟨"/orphan", .num (.i 1), ⟨"dojo/computed", 1, "h", 0, ["/gone"], "+", 0⟩, .noop⟩ hall

end Dojo
